import Mathlib

/-!
Verification of the zbx Zabbix-agent library: a shallow embedding of the
frame codec (`readZabbixMessage` / `sendZabbixMessage`), the passive
connection handler (`consumeReader` / `newConnection`), and the active
session protocol (`startActiveSession` / `ActiveSession.Send`), together
with theorems settling the spec's claims about them.

Byte streams are modelled as `List Nat` (each element one byte).  A Go
`io.Reader` backed by the byte sequence (the semantics of `bytes.Reader`,
which is also what the repository's own unit tests feed these functions)
is modelled by `goRead`: a single `Read` into a buffer of size `n` fills
the buffer with the next `min n available` bytes (the rest of the buffer
keeps the zero bytes `make` put there), reports how many bytes were
filled, and reports `io.EOF` exactly when the stream was already
exhausted at the time of the call.
-/

/-- One Go `r.Read(buf)` call with `buf := make([]byte, n)` against a
byte stream holding `src`: returns the buffer contents (read bytes
followed by the buffer's untouched zero padding), the byte count the
call reports, and the remaining stream. -/
def goRead (src : List Nat) (n : Nat) : List Nat × Nat × List Nat :=
  (src.take n ++ List.replicate (n - src.length) 0, min n src.length, src.drop n)

/-- The magic marker `"ZBXD"`. -/
def zbxdMagic : List Nat := [90, 66, 88, 68]

/-- Little-endian decoding of a 4-byte buffer (`binary.LittleEndian.Uint32`). -/
def le32 (l : List Nat) : Nat :=
  l.getD 0 0 + 256 * l.getD 1 0 + 65536 * l.getD 2 0 + 16777216 * l.getD 3 0

/-- Little-endian decoding of an 8-byte buffer (`binary.LittleEndian.Uint64`). -/
def le64 (l : List Nat) : Nat :=
  l.getD 0 0 + 256 * l.getD 1 0 + 65536 * l.getD 2 0 + 16777216 * l.getD 3 0 +
    4294967296 * l.getD 4 0 + 1099511627776 * l.getD 5 0 +
    281474976710656 * l.getD 6 0 + 72057594037927936 * l.getD 7 0

/-- `binary.LittleEndian.PutUint32(buf, uint32(n))`: the 4 bytes written
(the `uint32` conversion truncates, which the `% 256` of the top limb
realises). -/
def le32enc (n : Nat) : List Nat :=
  [n % 256, n / 256 % 256, n / 65536 % 256, n / 16777216 % 256]

/-- `binary.LittleEndian.PutUint64(buf, uint64(n))`: the 8 bytes written. -/
def le64enc (n : Nat) : List Nat :=
  [n % 256, n / 256 % 256, n / 65536 % 256, n / 16777216 % 256,
   n / 4294967296 % 256, n / 1099511627776 % 256,
   n / 281474976710656 % 256, n / 72057594037927936 % 256]

/-- The tail of `readZabbixMessage` after the header has been consumed:
`data := make([]byte, dataLength); actualLen, err := r.Read(data)`.
Unlike the header reads this one treats `io.EOF` as a failure
(`if err != nil { return nil, err }`), and `bytes.Reader` reports
`io.EOF` exactly when the stream is already empty. -/
def readMsgBody (rest : List Nat) (dataLength : Nat) : Except String (List Nat) :=
  if rest = [] then Except.error "EOF" else
  let d := goRead rest dataLength
  if dataLength ≠ d.2.1 then Except.error "invalid header: incorrect data length" else
  Except.ok d.1

/-- `readZabbixMessage` (message codec, read side): consumes one frame
from the stream and returns the payload.  Magic must be `"ZBXD"`, flag
bit0 must be set, bit1 (compression) must be clear; bit2 selects the
8-byte length + 8-byte reserved form, otherwise 4 + 4; reserved bytes
must be all-zero.  Note: this function has no upper bound on the
declared length. -/
def readZabbixMessage (r : List Nat) : Except String (List Nat) :=
  let hdr := goRead r 4
  if hdr.1 ≠ zbxdMagic then Except.error "invalid header" else
  let fl := goRead hdr.2.2 1
  let flags := fl.1.headD 0
  if flags &&& 1 ≠ 1 then Except.error "invalid header: unknown flags" else
  if flags &&& 2 ≠ 0 then Except.error "invalid header: compression is not supported" else
  if flags &&& 4 ≠ 0 then
    let lb := goRead fl.2.2 8
    let dataLength := le64 lb.1
    let rs := goRead lb.2.2 8
    if rs.1 ≠ [0, 0, 0, 0, 0, 0, 0, 0] then
      Except.error "invalid header: non-zero reserved bytes"
    else readMsgBody rs.2.2 dataLength
  else
    let lb := goRead fl.2.2 4
    let dataLength := le32 lb.1
    let rs := goRead lb.2.2 4
    if rs.1 ≠ [0, 0, 0, 0] then
      Except.error "invalid header: non-zero reserved bytes"
    else readMsgBody rs.2.2 dataLength

/-- The byte sequence `sendZabbixMessage` assembles and writes as one
contiguous write: `"ZBXD\x01"` + 4-byte little-endian length + 4 zero
reserved bytes + payload.  The compact header form is always used. -/
def sendZabbixMessageBytes (data : List Nat) : List Nat :=
  zbxdMagic ++ [1] ++ le32enc data.length ++ [0, 0, 0, 0] ++ data

-- Basic reader lemmas --------------------------------------------------

theorem goRead_exact (a b : List Nat) (n : Nat) (h : a.length = n) :
    goRead (a ++ b) n = (a, n, b) := by
  subst h
  unfold goRead
  have hlen : (a ++ b).length = a.length + b.length := by simp
  have hsub : a.length - (a ++ b).length = 0 := by omega
  have hmin : min a.length (a ++ b).length = a.length := by omega
  simp [hsub, hmin]

theorem goRead_all (a : List Nat) : goRead a a.length = (a, a.length, []) := by
  have := goRead_exact a [] a.length rfl
  simpa using this

theorem le32_le32enc (n : Nat) (h : n < 4294967296) : le32 (le32enc n) = n := by
  simp only [le32, le32enc, List.getD_cons_zero, List.getD_cons_succ]
  omega

theorem readMsgBody_all (a : List Nat) (h : a ≠ []) :
    readMsgBody a a.length = Except.ok a := by
  unfold readMsgBody
  rw [if_neg h, goRead_all]
  simp

-- Passive connection handler -------------------------------------------

/-- The Go values the examples and tests return from an item callback,
together with how `fmt.Sprintf("%v", x)` renders them. -/
inductive ZValue where
  | uintVal (n : Nat)
  | strVal (s : List Nat)
  | boolVal (b : Bool)
  deriving DecidableEq, Repr

/-- The possible outcomes of one non-crashing call of the item callback
`func(key string) (interface{}, error)`: a value, `(nil, nil)` (key
unknown), or a non-nil error carrying a message. -/
inductive ItemOutcome where
  | value (v : ZValue)
  | absent
  | error (e : List Nat)
  deriving DecidableEq, Repr

/-- `fmt.Sprintf("%v", respObj)` as UTF-8 bytes. -/
def renderValue : ZValue → List Nat
  | ZValue.uintVal n => (Nat.toDigits 10 n).map Char.toNat
  | ZValue.strVal s => s
  | ZValue.boolVal true => [116, 114, 117, 101]
  | ZValue.boolVal false => [102, 97, 108, 115, 101]

/-- One invocation of the value-source capability: it either returns an
`ItemOutcome` or crashes (a Go panic while resolving). -/
inductive ItemCall where
  | returns (o : ItemOutcome)
  | panics
  deriving DecidableEq, Repr

/-- Modelled from the spec: the passive handler "invokes the value-source
capability under a fault boundary: if the capability raises an
unrecoverable fault, the boundary recovers it, logs it, and the outcome
is treated as `absent`".  The recovery wrapper around the item callback
is not among the provided source files (only its test `TestKeyPanic`
exercises it), so it is modelled from the spec's words: a crashing
resolution yields the `absent` outcome, exactly as `(nil, nil)` would. -/
def getValueFromItemFunc (itemFunc : List Nat → ItemCall) (key : List Nat) : ItemOutcome :=
  match itemFunc key with
  | ItemCall.returns o => o
  | ItemCall.panics => ItemOutcome.absent

/-- `"ZBX_NOTSUPPORTED\x00"` — the 17-byte literal prefix of every
not-supported reply payload. -/
def zbxNotSupported : List Nat :=
  [90, 66, 88, 95, 78, 79, 84, 83, 85, 80, 80, 79, 82, 84, 69, 68, 0]

/-- `"Item key unknown"`. -/
def itemKeyUnknown : List Nat :=
  [73, 116, 101, 109, 32, 107, 101, 121, 32, 117, 110, 107, 110, 111, 119, 110]

/-- The reply payload `consumeReader` builds from the capability outcome
(the `if err != nil / else if respObj == nil / else` chain). -/
def outcomeData : ItemOutcome → List Nat
  | ItemOutcome.error e => zbxNotSupported ++ e
  | ItemOutcome.absent => zbxNotSupported ++ itemKeyUnknown
  | ItemOutcome.value v => renderValue v

/-- The reply frame `consumeReader` assembles: `"ZBXD\x01"` header plus
an 8-byte little-endian length (`PutUint64`) plus the payload — 13
bytes of envelope.  (For payloads under 4 GiB these bytes coincide with
the compact 4-byte-length + 4-zero-reserved form.) -/
def consumeReplyFrame (data : List Nat) : List Nat :=
  zbxdMagic ++ [1] ++ le64enc data.length ++ data

/-- `consumeReader`: the passive per-connection handler.  Reads the 4
magic bytes (must be `"ZBXD"`), 1 flags byte (must be exactly `0x01`),
a 4-byte little-endian length (rejected when ≥ 128 MiB), 4 reserved
bytes (ignored), then `length` key bytes (the reported read count must
equal the declared length).  The key is resolved through the
capability and the reply frame is returned; every validation failure
returns `none` (Go `nil`).  All header reads tolerate `io.EOF`, so a
short stream simply leaves zero bytes in the buffers. -/
def consumeReader (itemFunc : List Nat → ItemCall) (r : List Nat) : Option (List Nat) :=
  let hdr := goRead r 4
  if hdr.1 ≠ zbxdMagic then none else
  let fl := goRead hdr.2.2 1
  if fl.1 ≠ [1] then none else
  let kl := goRead fl.2.2 4
  let dataLength := le32 kl.1
  if 134217728 ≤ dataLength then none else
  let rs := goRead kl.2.2 4
  let kb := goRead rs.2.2 dataLength
  if kb.2.1 ≠ dataLength then none else
  let key := kb.1
  let data := outcomeData (getValueFromItemFunc itemFunc key)
  some (consumeReplyFrame data)

/-- `newConnection` writes `consumeReader`'s reply to the connection
only when it is non-nil; this is the byte sequence the remote peer
receives. -/
def newConnectionWrites (itemFunc : List Nat → ItemCall) (r : List Nat) : List Nat :=
  match consumeReader itemFunc r with
  | none => []
  | some reply => reply

/-- The request frame the repository's tests send for a key: `"ZBXD"`,
flags `0x01`, 4-byte little-endian key length, 4 zero reserved bytes,
then the key bytes (`requestForKey` in the tests). -/
def requestForKey (key : List Nat) : List Nat :=
  zbxdMagic ++ [1] ++ le32enc key.length ++ [0, 0, 0, 0] ++ key

theorem consumeReader_requestForKey (f : List Nat → ItemCall) (key : List Nat)
    (h : key.length < 134217728) :
    consumeReader f (requestForKey key) =
      some (consumeReplyFrame (outcomeData (getValueFromItemFunc f key))) := by
  have h32 : key.length < 4294967296 := by omega
  have hle : ¬ (134217728 ≤ key.length) := by omega
  have e1 := goRead_exact zbxdMagic ([1] ++ (le32enc key.length ++ ([0, 0, 0, 0] ++ key))) 4 rfl
  have e2 := goRead_exact [1] (le32enc key.length ++ ([0, 0, 0, 0] ++ key)) 1 rfl
  have e3 := goRead_exact (le32enc key.length) ([0, 0, 0, 0] ++ key) 4 (by simp [le32enc])
  have e4 := goRead_exact [0, 0, 0, 0] key 4 rfl
  have e5 := goRead_all key
  simp only [consumeReader, requestForKey, List.append_assoc, e1, e2, e3, e4,
    le32_le32enc key.length h32, e5]
  simp [hle]

theorem readMsgBody_of_length (a : List Nat) (n : Nat) (h : a ≠ []) (hl : a.length = n) :
    readMsgBody a n = Except.ok a :=
  hl ▸ readMsgBody_all a h

-- Concrete item callbacks used by witnesses and scenarios ----------------

/-- The bytes of `"agent.ping"`. -/
def agentPingKey : List Nat := [97, 103, 101, 110, 116, 46, 112, 105, 110, 103]

/-- The test agent: `"agent.ping"` resolves to the unsigned value 1,
every other key is unknown. -/
def agentPingFunc : List Nat → ItemCall := fun k =>
  if k = agentPingKey then ItemCall.returns (ItemOutcome.value (ZValue.uintVal 1))
  else ItemCall.returns ItemOutcome.absent

/-- A capability that knows no key at all. -/
def unknownKeyFunc : List Nat → ItemCall := fun _ => ItemCall.returns ItemOutcome.absent

/-- A capability that fails with error message `"x"` for every key. -/
def errorKeyFunc : List Nat → ItemCall := fun _ => ItemCall.returns (ItemOutcome.error [120])

/-- A capability that crashes (panics) for every key. -/
def panicKeyFunc : List Nat → ItemCall := fun _ => ItemCall.panics

/-- Claim C5: a passive request for `"agent.ping"`, when the capability
resolves it to the unsigned value 1, produces exactly the reply bytes
`5A 42 58 44 01 01 00 00 00 00 00 00 00 31`: magic `"ZBXD"`, flags
`0x01`, little-endian length 1 followed by zero bytes, payload `"1"`. -/
theorem agent_ping_reply_bytes :
    consumeReader agentPingFunc (requestForKey agentPingKey) =
      some [90, 66, 88, 68, 1, 1, 0, 0, 0, 0, 0, 0, 0, 49] := by
  decide

/-- Claim C6: for every valid passive request the reply payload is
determined by the capability outcome — an unknown key (`nil, nil`)
yields exactly `ZBX_NOTSUPPORTED` + NUL + `"Item key unknown"`, and an
explicit error `e` yields exactly `ZBX_NOTSUPPORTED` + NUL + `e`'s
message text. -/
theorem passive_reply_payload_outcomes (f : List Nat → ItemCall) (key : List Nat)
    (h : key.length < 134217728) :
    (f key = ItemCall.returns ItemOutcome.absent →
      consumeReader f (requestForKey key) =
        some (consumeReplyFrame (zbxNotSupported ++ itemKeyUnknown))) ∧
    (∀ e, f key = ItemCall.returns (ItemOutcome.error e) →
      consumeReader f (requestForKey key) =
        some (consumeReplyFrame (zbxNotSupported ++ e))) := by
  refine ⟨fun hf => ?_, fun e hf => ?_⟩ <;>
    rw [consumeReader_requestForKey f key h] <;>
    simp [getValueFromItemFunc, hf, outcomeData]

theorem passive_reply_payload_outcomes_witness :
    consumeReader unknownKeyFunc (requestForKey [97]) =
      some (consumeReplyFrame (zbxNotSupported ++ itemKeyUnknown)) ∧
    consumeReader errorKeyFunc (requestForKey [97]) =
      some (consumeReplyFrame (zbxNotSupported ++ [120])) :=
  ⟨(passive_reply_payload_outcomes unknownKeyFunc [97] (by decide)).1 rfl,
   (passive_reply_payload_outcomes errorKeyFunc [97] (by decide)).2 [120] rfl⟩

/-- Claim C2: a passive request whose key makes the capability crash is
answered exactly like an unknown key — the same well-formed
`ZBX_NOTSUPPORTED` + NUL + `"Item key unknown"` reply — and the handler
still returns normally (the fault is recovered, not propagated). -/
theorem passive_panic_recovered (f : List Nat → ItemCall) (key : List Nat)
    (h : key.length < 134217728) (hf : f key = ItemCall.panics) :
    consumeReader f (requestForKey key) =
      consumeReader unknownKeyFunc (requestForKey key) ∧
    consumeReader f (requestForKey key) =
      some (consumeReplyFrame (zbxNotSupported ++ itemKeyUnknown)) := by
  rw [consumeReader_requestForKey f key h, consumeReader_requestForKey unknownKeyFunc key h]
  simp [getValueFromItemFunc, hf, outcomeData, unknownKeyFunc]

theorem passive_panic_recovered_witness :
    consumeReader panicKeyFunc (requestForKey [112, 97, 110, 105, 99]) =
      consumeReader unknownKeyFunc (requestForKey [112, 97, 110, 105, 99]) ∧
    consumeReader panicKeyFunc (requestForKey [112, 97, 110, 105, 99]) =
      some (consumeReplyFrame (zbxNotSupported ++ itemKeyUnknown)) :=
  passive_panic_recovered panicKeyFunc [112, 97, 110, 105, 99] (by decide) rfl

/-- Claim C7: every input that fails frame validation in the passive
handler — wrong magic, a flags byte other than `0x01`, a declared
length of 128 MiB or more, or fewer actual body bytes than declared —
makes `consumeReader` return nil, so `newConnection` writes zero reply
bytes to the connection. -/
theorem malformed_request_no_reply (f : List Nat → ItemCall) :
    (∀ input, (goRead input 4).1 ≠ zbxdMagic → newConnectionWrites f input = []) ∧
    (∀ b rest, b ≠ 1 → newConnectionWrites f (zbxdMagic ++ b :: rest) = []) ∧
    (∀ len4 rest, len4.length = 4 → 134217728 ≤ le32 len4 →
      newConnectionWrites f (zbxdMagic ++ [1] ++ len4 ++ rest) = []) ∧
    (∀ n res body, res.length = 4 → n < 134217728 → body.length < n →
      newConnectionWrites f (zbxdMagic ++ [1] ++ le32enc n ++ res ++ body) = []) := by
  refine ⟨fun input h => ?_, fun b rest h => ?_, fun len4 rest hlen h => ?_,
    fun n res body hres hn hshort => ?_⟩
  · simp [newConnectionWrites, consumeReader, h]
  · have e1 := goRead_exact zbxdMagic (b :: rest) 4 rfl
    have e2 : goRead (b :: rest) 1 = ([b], 1, rest) := goRead_exact [b] rest 1 rfl
    simp [newConnectionWrites, consumeReader, List.append_assoc, e1, e2, h]
  · have e1 := goRead_exact zbxdMagic ([1] ++ (len4 ++ rest)) 4 rfl
    have e2 := goRead_exact [1] (len4 ++ rest) 1 rfl
    have e3 := goRead_exact len4 rest 4 hlen
    simp only [newConnectionWrites, consumeReader, List.append_assoc, e1, e2, e3]
    simp [h]
  · have e1 := goRead_exact zbxdMagic ([1] ++ (le32enc n ++ (res ++ body))) 4 rfl
    have e2 := goRead_exact [1] (le32enc n ++ (res ++ body)) 1 rfl
    have e3 := goRead_exact (le32enc n) (res ++ body) 4 (by simp [le32enc])
    have e4 := goRead_exact res body 4 hres
    have h32 : n < 4294967296 := by omega
    have hle : ¬ (134217728 ≤ n) := by omega
    have e5 : goRead body n = (body ++ List.replicate (n - body.length) 0, body.length, []) := by
      unfold goRead
      have h1 : body.take n = body := List.take_of_length_le (by omega)
      have h2 : body.drop n = [] := List.drop_eq_nil_of_le (by omega)
      have h3 : min n body.length = body.length := by omega
      rw [h1, h2, h3]
    have hne : body.length ≠ n := by omega
    simp only [newConnectionWrites, consumeReader, List.append_assoc, e1, e2, e3, e4,
      le32_le32enc n h32, e5]
    simp [hle, hne]

theorem malformed_request_no_reply_witness :
    newConnectionWrites unknownKeyFunc [72, 97, 99, 107] = [] ∧
    newConnectionWrites unknownKeyFunc (zbxdMagic ++ 3 :: [0, 0]) = [] ∧
    newConnectionWrites unknownKeyFunc (zbxdMagic ++ [1] ++ [0, 0, 0, 8] ++ [0, 0, 0, 0]) = [] ∧
    newConnectionWrites unknownKeyFunc
      (zbxdMagic ++ [1] ++ le32enc 10 ++ [0, 0, 0, 0] ++ [97]) = [] :=
  ⟨(malformed_request_no_reply unknownKeyFunc).1 [72, 97, 99, 107] (by decide),
   (malformed_request_no_reply unknownKeyFunc).2.1 3 [0, 0] (by decide),
   (malformed_request_no_reply unknownKeyFunc).2.2.1 [0, 0, 0, 8] [0, 0, 0, 0]
     (by decide) (by decide),
   (malformed_request_no_reply unknownKeyFunc).2.2.2 10 [0, 0, 0, 0] [97]
     (by decide) (by decide) (by decide)⟩

/-- A complete frame whose header declares exactly 128 MiB and whose
body really is 128 MiB of payload bytes (the digit `'1'`). -/
def oversizedFrame : List Nat :=
  zbxdMagic ++ [1] ++ le32enc 134217728 ++ [0, 0, 0, 0] ++ List.replicate 134217728 49

theorem readFrame_of_wellFormed (data : List Nat) (h1 : data ≠ [])
    (h2 : data.length < 4294967296) :
    readZabbixMessage (zbxdMagic ++ [1] ++ le32enc data.length ++ [0, 0, 0, 0] ++ data) =
      Except.ok data := by
  have e1 := goRead_exact zbxdMagic ([1] ++ (le32enc data.length ++ ([0, 0, 0, 0] ++ data))) 4 rfl
  have e2 := goRead_exact [1] (le32enc data.length ++ ([0, 0, 0, 0] ++ data)) 1 rfl
  have e3 := goRead_exact (le32enc data.length) ([0, 0, 0, 0] ++ data) 4 (by simp [le32enc])
  have e4 := goRead_exact [0, 0, 0, 0] data 4 rfl
  have f1 : ¬ ((1 : Nat) &&& 1 ≠ 1) := by decide
  have f2 : ¬ ((1 : Nat) &&& 2 ≠ 0) := by decide
  have f3 : ¬ ((1 : Nat) &&& 4 ≠ 0) := by decide
  have hbody : readMsgBody data (le32 (le32enc data.length)) = Except.ok data := by
    rw [le32_le32enc data.length h2]
    exact readMsgBody_of_length _ _ h1 rfl
  simp only [readZabbixMessage, List.append_assoc, e1, e2, e3, e4]
  simp [f1, f2, f3, hbody]

/-- Claim C3, counterexample: `readZabbixMessage` enforces no 128 MiB
bound — a frame declaring exactly 134217728 payload bytes is read to
completion and accepted when the bytes are present, refuting the claim
that the frame-reading operation rejects such frames without reading
the body. -/
theorem readZabbixMessage_no_size_limit :
    readZabbixMessage oversizedFrame = Except.ok (List.replicate 134217728 49) := by
  have hlen : (List.replicate 134217728 49 : List Nat).length = 134217728 :=
    List.length_replicate 134217728 49
  have hne : (List.replicate 134217728 49 : List Nat) ≠ [] := by
    intro hcon
    have h0 := congrArg List.length hcon
    rw [hlen] at h0
    exact absurd h0 (by norm_num)
  have h := readFrame_of_wellFormed (List.replicate 134217728 49) hne (by rw [hlen]; norm_num)
  rw [hlen] at h
  exact h

/-- Claim C3, amended part: the passive handler's own read path
(`consumeReader`) does reject every frame declaring 128 MiB or more,
without reading the body, regardless of what bytes follow the length
field. -/
theorem consumeReader_rejects_oversized (f : List Nat → ItemCall) (len4 rest : List Nat)
    (hlen : len4.length = 4) (h : 134217728 ≤ le32 len4) :
    consumeReader f (zbxdMagic ++ [1] ++ len4 ++ rest) = none := by
  have e1 := goRead_exact zbxdMagic ([1] ++ (len4 ++ rest)) 4 rfl
  have e2 := goRead_exact [1] (len4 ++ rest) 1 rfl
  have e3 := goRead_exact len4 rest 4 hlen
  simp only [consumeReader, List.append_assoc, e1, e2, e3]
  simp [h]

theorem consumeReader_rejects_oversized_witness :
    consumeReader unknownKeyFunc (zbxdMagic ++ [1] ++ [0, 0, 0, 8] ++ [7, 7]) = none :=
  consumeReader_rejects_oversized unknownKeyFunc [0, 0, 0, 8] [7, 7] (by decide) (by decide)

/-- Claim C4, counterexample: the round-trip law fails for the empty
payload.  `sendZabbixMessage` of an empty payload produces exactly the
13 header bytes; reading them back, the payload read `r.Read(data)`
finds the stream already exhausted and reports `io.EOF`, which
`readZabbixMessage` treats as a failure — the original (empty) payload
is not returned. -/
theorem roundtrip_empty_payload_fails :
    readZabbixMessage (sendZabbixMessageBytes []) = Except.error "EOF" := by
  rfl

/-- Claim C4, amended: for every non-empty payload shorter than 2^32
bytes, writing it with `sendZabbixMessage` and reading the resulting
bytes with `readZabbixMessage` yields back the original payload
exactly (compact non-extended-length header). -/
theorem roundtrip_nonempty (data : List Nat) (h1 : data ≠ [])
    (h2 : data.length < 4294967296) :
    readZabbixMessage (sendZabbixMessageBytes data) = Except.ok data := by
  have e1 := goRead_exact zbxdMagic ([1] ++ (le32enc data.length ++ ([0, 0, 0, 0] ++ data))) 4 rfl
  have e2 := goRead_exact [1] (le32enc data.length ++ ([0, 0, 0, 0] ++ data)) 1 rfl
  have e3 := goRead_exact (le32enc data.length) ([0, 0, 0, 0] ++ data) 4 (by simp [le32enc])
  have e4 := goRead_exact [0, 0, 0, 0] data 4 rfl
  have f1 : ¬ ((1 : Nat) &&& 1 ≠ 1) := by decide
  have f2 : ¬ ((1 : Nat) &&& 2 ≠ 0) := by decide
  have f3 : ¬ ((1 : Nat) &&& 4 ≠ 0) := by decide
  have hbody : readMsgBody data (le32 (le32enc data.length)) = Except.ok data := by
    rw [le32_le32enc data.length h2]
    exact readMsgBody_of_length _ _ h1 rfl
  simp only [readZabbixMessage, sendZabbixMessageBytes, List.append_assoc, e1, e2, e3, e4]
  simp [f1, f2, f3, hbody]

theorem roundtrip_nonempty_witness :
    readZabbixMessage (sendZabbixMessageBytes [49]) = Except.ok [49] :=
  roundtrip_nonempty [49] (by decide) (by decide)

-- Active session protocol ----------------------------------------------

/-- `SupportedItem`: one metric the collector expects the agent to push
(JSON fields `key`, `itemid`, `delay`, `timeout`). -/
structure SupportedItem where
  Key : String
  ItemId : Int
  Delay : String
  Timeout : String
  deriving DecidableEq, Repr

/-- The registration request `{request, host, version, variant}`. -/
structure ActiveCheckRequest where
  Request : String
  Host : String
  Version : String
  Variant : Int
  deriving DecidableEq, Repr

/-- The registration reply `{response, data}`. -/
structure ActiveChecksResponse where
  Response : String
  Data : List SupportedItem
  deriving DecidableEq, Repr

/-- One push-batch entry `{id, itemid, value, clock, ns}`. -/
structure ActiveCheckData where
  Id : Int
  ItemId : Int
  Value : String
  Clock : Int
  Ns : Int
  deriving DecidableEq, Repr

/-- The push request `{request, data, session, host, version, variant}`. -/
structure ActiveDataRequest where
  Request : String
  Data : List ActiveCheckData
  Session : String
  Host : String
  Version : String
  Variant : Int
  deriving DecidableEq, Repr

/-- The push reply `{response, info}`. -/
structure ActiveDataResponse where
  Response : String
  Info : String
  deriving DecidableEq, Repr

/-- One freshly dialed transport connection: `recv` holds the bytes the
peer will send back, `writeErr` the error `conn.Write` reports, if any. -/
structure Conn where
  writeErr : Option String
  recv : List Nat

/-- `conn.Write(out)`: the byte count on success, the connection's write
error otherwise. -/
def connWrite (c : Conn) (out : List Nat) : Except String Nat :=
  match c.writeErr with
  | some e => Except.error e
  | none => Except.ok out.length

/-- `sendZabbixMessage(w, data)`: assemble the frame and write it as one
contiguous write, returning `w.Write`'s result. -/
def sendZabbixMessage (w : Conn) (data : List Nat) : Except String Nat :=
  connWrite w (sendZabbixMessageBytes data)

/-- The Go session value: session id (16 random bytes rendered as hex),
agent hostname, and the per-item sequence-counter map `itemIdx`.  A Go
`map[int]int` lookup yields 0 for a missing entry, so the map is
modelled as a total function defaulting to 0.  The stored `dialFunc` is
modelled by passing each call's dial outcome as an argument. -/
structure ActiveSession where
  session : String
  hostname : String
  itemIdx : Int → Int

/-- The registration loop
`itemIdx := map[int]int{}; for _, item := range reply.Data { itemIdx[item.ItemId] = 1 }`
building the session's initial counters over the empty map. -/
def itemIdxOf (items : List SupportedItem) : Int → Int :=
  items.foldl (fun f item => fun x => if x = item.ItemId then 1 else f x) (fun _ => 0)

/-- `startActiveSession`: marshal the `"active checks"` request, dial,
send the request as one frame, read one frame back, parse it, require
`response == "success"`, and build the session with the initial item
counters.  The random session id (`sessionId()`) and the standard
library's JSON codec (`json.Marshal` / `json.Unmarshal`, external to
this repository) enter as the parameters `sid`, `marshalReq` and
`unmarshalChecks`; the dial outcome as `dial`. -/
def startActiveSession (agentHostname : String) (sid : String)
    (marshalReq : ActiveCheckRequest → List Nat)
    (unmarshalChecks : List Nat → Except String ActiveChecksResponse)
    (dial : Except String Conn) :
    Except String (ActiveSession × List SupportedItem) :=
  match dial with
  | Except.error e => Except.error e
  | Except.ok conn =>
    match sendZabbixMessage conn (marshalReq ⟨"active checks", agentHostname, "7.0.0", 2⟩) with
    | Except.error e => Except.error e
    | Except.ok _ =>
      match readZabbixMessage conn.recv with
      | Except.error e => Except.error e
      | Except.ok data =>
        match unmarshalChecks data with
        | Except.error e => Except.error e
        | Except.ok reply =>
          if reply.Response ≠ "success" then
            Except.error "unsuccessful response to active checks query"
          else
            Except.ok (⟨sid, agentHostname, itemIdxOf reply.Data⟩, reply.Data)

/-- The body of `Send`'s loop `for itemId, value := range values`: read
the current counter (`idx := s.itemIdx[itemId]`), store `idx + 1`, and
append the batch entry `{idx, itemId, value, clock, ns}` stamped with
that iteration's `time.Now()` (`times k` models the k-th call). -/
def sendDataLoop (idx : Int → Int) (values : List (Int × String))
    (times : Nat → Int × Int) (k : Nat) : List ActiveCheckData × (Int → Int) :=
  match values with
  | [] => ([], idx)
  | (itemId, value) :: rest =>
    let i := idx itemId
    let idx2 : Int → Int := fun x => if x = itemId then i + 1 else idx x
    let t := times k
    let r := sendDataLoop idx2 rest times (k + 1)
    (⟨i, itemId, value, t.1, t.2⟩ :: r.1, r.2)

/-- `ActiveSession.Send`: dial a brand-new connection; on dial failure
return the error at once.  Otherwise build the `"agent data"` request,
incrementing the per-item counters in the process (the Go map is
mutated in place, so the counters stay bumped whatever happens later),
marshal it, send it as one frame, read one frame back, parse
`{response, info}` and require `"success"`.  The returned pair carries
Go's two effects: the returned error value and the session's state
after the call.  `values` is the iteration order of the caller's map. -/
def ActiveSession.Send (s : ActiveSession) (values : List (Int × String))
    (times : Nat → Int × Int)
    (marshalData : ActiveDataRequest → List Nat)
    (unmarshalResp : List Nat → Except String ActiveDataResponse)
    (dial : Except String Conn) : Except String Unit × ActiveSession :=
  match dial with
  | Except.error e => (Except.error e, s)
  | Except.ok conn =>
    let pair := sendDataLoop s.itemIdx values times 0
    let request : ActiveDataRequest := ⟨"agent data", pair.1, s.session, s.hostname, "7.0.0", 2⟩
    let s2 : ActiveSession := ⟨s.session, s.hostname, pair.2⟩
    let result : Except String Unit :=
      match sendZabbixMessage conn (marshalData request) with
      | Except.error e => Except.error e
      | Except.ok _ =>
        match readZabbixMessage conn.recv with
        | Except.error e => Except.error e
        | Except.ok replyData =>
          match unmarshalResp replyData with
          | Except.error e => Except.error e
          | Except.ok reply =>
            if reply.Response = "success" then Except.ok ()
            else
              Except.error ("send error: " ++
                (if reply.Info = "" then "unrecognized reply from server" else reply.Info))
    (result, s2)

-- Counter lemmas --------------------------------------------------------

theorem itemIdxOf_aux (items : List SupportedItem) (base : Int → Int) (x : Int)
    (h : (∃ it ∈ items, it.ItemId = x) ∨ base x = 1) :
    items.foldl (fun f item => fun y => if y = item.ItemId then 1 else f y) base x = 1 := by
  induction items generalizing base with
  | nil =>
    rcases h with ⟨it, hmem, _⟩ | hbase
    · exact absurd hmem (List.not_mem_nil it)
    · simpa using hbase
  | cons hd tl ih =>
    simp only [List.foldl_cons]
    apply ih
    rcases h with ⟨it, hmem, hx⟩ | hbase
    · rcases List.mem_cons.mp hmem with heq | hmemtl
      · right
        subst heq
        simp [hx]
      · left
        exact ⟨it, hmemtl, hx⟩
    · right
      by_cases hxe : x = hd.ItemId <;> simp [hxe, hbase]

theorem itemIdxOf_mem (items : List SupportedItem) (it : SupportedItem)
    (h : it ∈ items) : itemIdxOf items it.ItemId = 1 :=
  itemIdxOf_aux items (fun _ => 0) it.ItemId (Or.inl ⟨it, h, rfl⟩)

theorem sendDataLoop_not_mem (values : List (Int × String)) (idx : Int → Int)
    (times : Nat → Int × Int) (k : Nat) (iid : Int)
    (h : iid ∉ values.map Prod.fst) :
    (sendDataLoop idx values times k).2 iid = idx iid := by
  induction values generalizing idx k with
  | nil => rfl
  | cons hd tl ih =>
    simp only [List.map_cons, List.mem_cons, not_or] at h
    simp only [sendDataLoop]
    rw [ih _ _ h.2]
    simp [h.1]

theorem sendDataLoop_mem (values : List (Int × String)) (idx : Int → Int)
    (times : Nat → Int × Int) (k : Nat) (iid : Int)
    (hnd : (values.map Prod.fst).Nodup) (h : iid ∈ values.map Prod.fst) :
    (sendDataLoop idx values times k).2 iid = idx iid + 1 := by
  induction values generalizing idx k with
  | nil => exact absurd h (List.not_mem_nil iid)
  | cons hd tl ih =>
    simp only [List.map_cons, List.nodup_cons] at hnd
    simp only [sendDataLoop]
    rcases List.mem_cons.mp h with heq | hmemtl
    · subst heq
      rw [sendDataLoop_not_mem tl _ times _ _ hnd.1]
      simp
    · have hne : iid ≠ hd.1 := fun hcon => hnd.1 (hcon ▸ hmemtl)
      rw [ih _ _ hnd.2 hmemtl]
      simp [hne]

-- Claim C1 --------------------------------------------------------------

/-- The one supported item the scenario's handshake responder returns
(`{key: "agent.ping", itemid: 1000, delay: "10s", timeout: "10s"}`). -/
def pingItem : SupportedItem := ⟨"agent.ping", 1000, "10s", "10s"⟩

/-- The scenario's supported-item list. -/
def pingItems : List SupportedItem := [pingItem]

/-- The request bytes never influence the fixed responder, so the
scenario marshaller renders every request as no bytes. -/
def marshalReqFix : ActiveCheckRequest → List Nat := fun _ => []

/-- The scenario responder's reply, already parsed: `"success"` with the
single item 1000. -/
def unmarshalChecksFix : List Nat → Except String ActiveChecksResponse :=
  fun _ => Except.ok ⟨"success", pingItems⟩

/-- A healthy connection whose peer sends back one valid frame. -/
def connFix : Conn := ⟨none, sendZabbixMessageBytes [49]⟩

/-- The session the scenario registration produces. -/
def sessFix : ActiveSession := ⟨"0123", "myserver.example.com", itemIdxOf pingItems⟩

/-- The scenario push-marshaller (the rendered bytes are irrelevant to
the fixed responder). -/
def marshalDataFix : ActiveDataRequest → List Nat := fun _ => []

/-- The scenario push responder's reply, already parsed: `"success"`. -/
def unmarshalRespFix : List Nat → Except String ActiveDataResponse :=
  fun _ => Except.ok ⟨"success", "foo"⟩

/-- Claim C1, counterexample: registering against a responder that
returns the single item 1000 yields a session whose counter for item
1000 is 1, not 0; the first push of `{1000: "ok"}` sends sequence id 1
(not 0) in its batch entry, and a successful push leaves the counter at
2 (not 1). -/
theorem active_counter_init_counterexample :
    startActiveSession "myserver.example.com" "0123" marshalReqFix unmarshalChecksFix
        (Except.ok connFix) = Except.ok (sessFix, pingItems) ∧
    sessFix.itemIdx 1000 = 1 ∧ ¬ sessFix.itemIdx 1000 = 0 ∧
    (sendDataLoop sessFix.itemIdx [(1000, "ok")] (fun _ => (5, 7)) 0).1 =
      [⟨1, 1000, "ok", 5, 7⟩] ∧
    (ActiveSession.Send sessFix [(1000, "ok")] (fun _ => (5, 7)) marshalDataFix
        unmarshalRespFix (Except.ok connFix)).1 = Except.ok () ∧
    ((ActiveSession.Send sessFix [(1000, "ok")] (fun _ => (5, 7)) marshalDataFix
        unmarshalRespFix (Except.ok connFix)).2).itemIdx 1000 = 2 :=
  ⟨rfl, rfl, by decide, rfl, rfl, rfl⟩

/-- Claim C1, amended: for every successful registration the session's
per-item sequence counter is initialized to 1 for every returned item
id, so the first `Send` push for a registered item id carries sequence
id 1 in its batch entry and leaves the session's counter for that item
at 2 after the call (in particular on success). -/
theorem active_counter_init_one (hostname sid : String)
    (m : ActiveCheckRequest → List Nat)
    (u : List Nat → Except String ActiveChecksResponse)
    (dial : Except String Conn) (sess : ActiveSession) (items : List SupportedItem)
    (hok : startActiveSession hostname sid m u dial = Except.ok (sess, items)) :
    ∀ it, it ∈ items →
      sess.itemIdx it.ItemId = 1 ∧
      ∀ v times,
        (sendDataLoop sess.itemIdx [(it.ItemId, v)] times 0).1 =
          [⟨1, it.ItemId, v, (times 0).1, (times 0).2⟩] ∧
        ∀ md ud conn,
          ((ActiveSession.Send sess [(it.ItemId, v)] times md ud (Except.ok conn)).2).itemIdx
            it.ItemId = 2 := by
  have hidx : sess.itemIdx = itemIdxOf items := by
    unfold startActiveSession at hok
    split at hok
    · exact absurd hok (by simp)
    · split at hok
      · exact absurd hok (by simp)
      · split at hok
        · exact absurd hok (by simp)
        · split at hok
          · exact absurd hok (by simp)
          · split at hok
            · exact absurd hok (by simp)
            · have h1 := (Except.ok.injEq _ _).mp hok
              have h2 := (Prod.mk.injEq _ _ _ _).mp h1
              rw [← h2.1]
              rw [← h2.2]
  intro it hmem
  have h1 : sess.itemIdx it.ItemId = 1 := by
    rw [hidx]
    exact itemIdxOf_mem items it hmem
  refine ⟨h1, fun v times => ⟨?_, fun md ud conn => ?_⟩⟩
  · simp [sendDataLoop, h1]
  · simp [ActiveSession.Send, sendDataLoop, h1]

theorem active_counter_init_one_witness :
    sessFix.itemIdx 1000 = 1 ∧
    (sendDataLoop sessFix.itemIdx [((1000 : Int), "ok")] (fun _ => (5, 7)) 0).1 =
      [⟨1, 1000, "ok", 5, 7⟩] ∧
    ((ActiveSession.Send sessFix [((1000 : Int), "ok")] (fun _ => (5, 7)) marshalDataFix
        unmarshalRespFix (Except.ok connFix)).2).itemIdx 1000 = 2 := by
  have h := active_counter_init_one "myserver.example.com" "0123" marshalReqFix
    unmarshalChecksFix (Except.ok connFix) sessFix pingItems rfl pingItem
    (List.mem_singleton.mpr rfl)
  exact ⟨h.1, (h.2 "ok" (fun _ => (5, 7))).1,
    (h.2 "ok" (fun _ => (5, 7))).2 marshalDataFix unmarshalRespFix connFix⟩

-- Claims C8, C9, C10 ----------------------------------------------------

/-- A connection whose `Write` fails. -/
def connWriteFail : Conn := ⟨some "write refused", []⟩

/-- A connection whose peer sends nothing back (the frame read fails). -/
def connBadRead : Conn := ⟨none, []⟩

/-- A connection whose peer sends back one valid frame with payload
`[50]`. -/
def connFrame50 : Conn := ⟨none, sendZabbixMessageBytes [50]⟩

/-- A registration reply parser that fails on payload `[50]` and parses
everything else as a non-`"success"` reply. -/
def unmarshalChecksCase : List Nat → Except String ActiveChecksResponse :=
  fun d => if d = [50] then Except.error "parse error" else Except.ok ⟨"nope", []⟩

/-- Claim C8: a registration attempt returns an error — and hence no
session value — whenever the dial fails, the frame write fails, the
frame read fails, the JSON parse fails, or the parsed reply's response
is not `"success"`. -/
theorem startActiveSession_failure_cases (hostname sid : String)
    (m : ActiveCheckRequest → List Nat)
    (u : List Nat → Except String ActiveChecksResponse) :
    (∀ e, startActiveSession hostname sid m u (Except.error e) = Except.error e) ∧
    (∀ conn e, conn.writeErr = some e →
      startActiveSession hostname sid m u (Except.ok conn) = Except.error e) ∧
    (∀ conn e, conn.writeErr = none → readZabbixMessage conn.recv = Except.error e →
      startActiveSession hostname sid m u (Except.ok conn) = Except.error e) ∧
    (∀ conn rd e, conn.writeErr = none → readZabbixMessage conn.recv = Except.ok rd →
      u rd = Except.error e →
      startActiveSession hostname sid m u (Except.ok conn) = Except.error e) ∧
    (∀ conn rd reply, conn.writeErr = none → readZabbixMessage conn.recv = Except.ok rd →
      u rd = Except.ok reply → reply.Response ≠ "success" →
      startActiveSession hostname sid m u (Except.ok conn) =
        Except.error "unsuccessful response to active checks query") := by
  refine ⟨fun e => rfl, fun conn e hw => ?_, fun conn e hw hr => ?_,
    fun conn rd e hw hr hu => ?_, fun conn rd reply hw hr hu hresp => ?_⟩
  · simp [startActiveSession, sendZabbixMessage, connWrite, hw]
  · simp [startActiveSession, sendZabbixMessage, connWrite, hw, hr]
  · simp [startActiveSession, sendZabbixMessage, connWrite, hw, hr, hu]
  · simp [startActiveSession, sendZabbixMessage, connWrite, hw, hr, hu, hresp]

theorem startActiveSession_failure_cases_witness :
    startActiveSession "h" "s" marshalReqFix unmarshalChecksCase
      (Except.error "dial refused") = Except.error "dial refused" ∧
    startActiveSession "h" "s" marshalReqFix unmarshalChecksCase
      (Except.ok connWriteFail) = Except.error "write refused" ∧
    startActiveSession "h" "s" marshalReqFix unmarshalChecksCase
      (Except.ok connBadRead) = Except.error "invalid header" ∧
    startActiveSession "h" "s" marshalReqFix unmarshalChecksCase
      (Except.ok connFrame50) = Except.error "parse error" ∧
    startActiveSession "h" "s" marshalReqFix unmarshalChecksCase
      (Except.ok connFix) = Except.error "unsuccessful response to active checks query" :=
  ⟨(startActiveSession_failure_cases "h" "s" marshalReqFix unmarshalChecksCase).1
      "dial refused",
   (startActiveSession_failure_cases "h" "s" marshalReqFix unmarshalChecksCase).2.1
      connWriteFail "write refused" rfl,
   (startActiveSession_failure_cases "h" "s" marshalReqFix unmarshalChecksCase).2.2.1
      connBadRead "invalid header" rfl rfl,
   (startActiveSession_failure_cases "h" "s" marshalReqFix unmarshalChecksCase).2.2.2.1
      connFrame50 [50] "parse error" rfl rfl rfl,
   (startActiveSession_failure_cases "h" "s" marshalReqFix unmarshalChecksCase).2.2.2.2
      connFix [49] ⟨"nope", []⟩ rfl rfl rfl (by decide)⟩

/-- Claim C9: when a `Send` call reaches the reply parse, a parsed
response of `"success"` makes the push succeed with no error; any other
response yields an error carrying the server-supplied `info` text, or
the generic `"unrecognized reply from server"` message when `info` is
empty. -/
theorem send_reply_handling (s : ActiveSession) (values : List (Int × String))
    (times : Nat → Int × Int) (md : ActiveDataRequest → List Nat)
    (ud : List Nat → Except String ActiveDataResponse) (conn : Conn)
    (rd : List Nat) (reply : ActiveDataResponse)
    (hw : conn.writeErr = none) (hr : readZabbixMessage conn.recv = Except.ok rd)
    (hu : ud rd = Except.ok reply) :
    (reply.Response = "success" →
      (ActiveSession.Send s values times md ud (Except.ok conn)).1 = Except.ok ()) ∧
    (reply.Response ≠ "success" → reply.Info ≠ "" →
      (ActiveSession.Send s values times md ud (Except.ok conn)).1 =
        Except.error ("send error: " ++ reply.Info)) ∧
    (reply.Response ≠ "success" → reply.Info = "" →
      (ActiveSession.Send s values times md ud (Except.ok conn)).1 =
        Except.error "send error: unrecognized reply from server") := by
  refine ⟨fun hresp => ?_, fun hresp hinfo => ?_, fun hresp hinfo => ?_⟩
  · simp [ActiveSession.Send, sendZabbixMessage, connWrite, hw, hr, hu, hresp]
  · simp [ActiveSession.Send, sendZabbixMessage, connWrite, hw, hr, hu, hresp, hinfo]
  · simp [ActiveSession.Send, sendZabbixMessage, connWrite, hw, hr, hu, hresp, hinfo]

/-- A push reply parser yielding a non-`"success"` response with info
text `"oops"`. -/
def unmarshalRespNope : List Nat → Except String ActiveDataResponse :=
  fun _ => Except.ok ⟨"nope", "oops"⟩

/-- A push reply parser yielding a non-`"success"` response with empty
info text. -/
def unmarshalRespEmptyInfo : List Nat → Except String ActiveDataResponse :=
  fun _ => Except.ok ⟨"nope", ""⟩

theorem send_reply_handling_witness :
    (ActiveSession.Send sessFix [((1000 : Int), "ok")] (fun _ => (5, 7)) marshalDataFix
      unmarshalRespFix (Except.ok connFix)).1 = Except.ok () ∧
    (ActiveSession.Send sessFix [((1000 : Int), "ok")] (fun _ => (5, 7)) marshalDataFix
      unmarshalRespNope (Except.ok connFix)).1 = Except.error "send error: oops" ∧
    (ActiveSession.Send sessFix [((1000 : Int), "ok")] (fun _ => (5, 7)) marshalDataFix
      unmarshalRespEmptyInfo (Except.ok connFix)).1 =
        Except.error "send error: unrecognized reply from server" :=
  ⟨(send_reply_handling sessFix [((1000 : Int), "ok")] (fun _ => (5, 7)) marshalDataFix
      unmarshalRespFix connFix [49] ⟨"success", "foo"⟩ rfl rfl rfl).1 rfl,
   (send_reply_handling sessFix [((1000 : Int), "ok")] (fun _ => (5, 7)) marshalDataFix
      unmarshalRespNope connFix [49] ⟨"nope", "oops"⟩ rfl rfl rfl).2.1
      (by decide) (by decide),
   (send_reply_handling sessFix [((1000 : Int), "ok")] (fun _ => (5, 7)) marshalDataFix
      unmarshalRespEmptyInfo connFix [49] ⟨"nope", ""⟩ rfl rfl rfl).2.2
      (by decide) rfl⟩

/-- Claim C10: `Send` leaves every per-item counter unchanged when the
dial fails (it returns the dial error with the session untouched), but
once the dial succeeds the counter of every item id in the supplied
mapping is incremented — before transmission, hence whatever the write,
read, parse, or reply outcome is. -/
theorem send_counter_atomicity (s : ActiveSession) (values : List (Int × String))
    (times : Nat → Int × Int) (md : ActiveDataRequest → List Nat)
    (ud : List Nat → Except String ActiveDataResponse) :
    (∀ e, ActiveSession.Send s values times md ud (Except.error e) =
      (Except.error e, s)) ∧
    (∀ conn, (values.map Prod.fst).Nodup →
      ∀ iid, iid ∈ values.map Prod.fst →
        ((ActiveSession.Send s values times md ud (Except.ok conn)).2).itemIdx iid =
          s.itemIdx iid + 1) := by
  refine ⟨fun e => rfl, fun conn hnd iid hmem => ?_⟩
  have h2 : (ActiveSession.Send s values times md ud (Except.ok conn)).2 =
      ⟨s.session, s.hostname, (sendDataLoop s.itemIdx values times 0).2⟩ := rfl
  rw [h2]
  exact sendDataLoop_mem values s.itemIdx times 0 iid hnd hmem

/-- A fresh session whose counters are all still 0. -/
def sessZero : ActiveSession := ⟨"s", "h", fun _ => 0⟩

theorem send_counter_atomicity_witness :
    ActiveSession.Send sessZero [((5 : Int), "x")] (fun _ => (5, 7)) marshalDataFix
      unmarshalRespFix (Except.error "dial refused") =
        (Except.error "dial refused", sessZero) ∧
    ((ActiveSession.Send sessZero [((5 : Int), "x")] (fun _ => (5, 7)) marshalDataFix
      unmarshalRespFix (Except.ok connFix)).2).itemIdx 5 = sessZero.itemIdx 5 + 1 :=
  ⟨(send_counter_atomicity sessZero [((5 : Int), "x")] (fun _ => (5, 7)) marshalDataFix
      unmarshalRespFix).1 "dial refused",
   (send_counter_atomicity sessZero [((5 : Int), "x")] (fun _ => (5, 7)) marshalDataFix
      unmarshalRespFix).2 connFix (by decide) 5 (by decide)⟩
